import Mathlib

/-!
Verification development for the `aichat` gateway server (`src/serve.rs`).

The gateway re-exposes provider chat completions as an OpenAI-compatible
HTTP endpoint.  This file gives a shallow embedding of the request
handling, response serialization, streaming relay and address
normalization logic of `src/serve.rs`, together with theorems about the
embedded definitions.

Rust `serde_json::Value` objects are embedded as a small `Json` inductive
keeping fields in construction order (as the `json!` macro does).
-/

/-- A JSON value, mirroring `serde_json::Value` as used by `serve.rs`. -/
inductive Json where
  | null : Json
  | bool (b : Bool) : Json
  | num (n : Int) : Json
  | str (s : String) : Json
  | arr (xs : List Json) : Json
  | obj (fields : List (String × Json)) : Json
  deriving Repr

/-- Field lookup in a JSON object (first binding wins, as in a JSON map). -/
def Json.get? : Json → String → Option Json
  | .obj fields, k => fields.lookup k
  | _, _ => none

/-- Index lookup in a JSON array. -/
def Json.idx? : Json → Nat → Option Json
  | .arr xs, i => xs.get? i
  | _, _ => none

/-- JSON string escaping (quote, backslash and the common control chars),
as `serde_json` produces for the strings occurring here. -/
def Json.escapeChar (c : Char) : String :=
  if c = '"' then "\\\""
  else if c = '\\' then "\\\\"
  else if c = '\n' then "\\n"
  else if c = '\r' then "\\r"
  else if c = '\t' then "\\t"
  else String.singleton c

/-- Render a string as a JSON string literal. -/
def Json.renderStr (s : String) : String :=
  "\"" ++ String.join (s.toList.map Json.escapeChar) ++ "\""

/-- Serialize a JSON value, keeping object fields in construction order
(the order the `json!` macro wrote them). -/
def Json.render : Json → String
  | .null => "null"
  | .bool b => if b then "true" else "false"
  | .num n => toString n
  | .str s => Json.renderStr s
  | .arr xs => "[" ++ String.intercalate "," (xs.attach.map (fun x => Json.render x.1)) ++ "]"
  | .obj fields =>
      "\x7b" ++
        String.intercalate ","
          (fields.attach.map (fun f => Json.renderStr f.1.1 ++ ":" ++ Json.render f.1.2)) ++
      "\x7d"
decreasing_by
  · simp only [Json.arr.sizeOf_spec]
    have := List.sizeOf_lt_of_mem x.2
    omega
  · simp only [Json.obj.sizeOf_spec]
    have h1 := List.sizeOf_lt_of_mem f.2
    have h2 : sizeOf f.1.2 < sizeOf f.1 := by
      rcases f with ⟨⟨k, v⟩, hf⟩
      simp
    omega

/-- HTTP methods as matched by `Server::handle`. -/
inductive Method where
  | GET | POST | OPTIONS | PUT | PATCH | DELETE | HEAD
  deriving DecidableEq, Repr

/-- An HTTP response as assembled by the gateway: status code, headers
(an insert-with-replace map, embedded as an association list) and a JSON
body (`Json.null` stands for an empty body). -/
structure HttpResponse where
  status : Nat
  headers : List (String × String)
  body : Json

/-- `headers_mut().insert(k, v)`: sets a header, replacing any existing
value for the same name. -/
def insertHeader (hs : List (String × String)) (k v : String) : List (String × String) :=
  (k, v) :: hs.filter (fun h => h.1 ≠ k)

/-- Header lookup. -/
def getHeader (r : HttpResponse) (k : String) : Option String :=
  r.headers.lookup k

/-- The JSON error envelope of `ret_err` (src/serve.rs:394-405). -/
def errorEnvelope (message : String) : Json :=
  .obj [("error", .obj [("message", .str message), ("type", .str "invalid_request_error")])]

/-- `ret_err` (src/serve.rs:394-405): a response whose body is the JSON
error envelope; the builder's default status is 200 (overwritten by the
caller). -/
def ret_err (err : String) : HttpResponse :=
  { status := 200
    headers := [("Content-Type", "application/json")]
    body := errorEnvelope err }

/-- `set_cors_header` (src/serve.rs:311-324): inserts the three CORS
headers into a response. -/
def set_cors_header (res : HttpResponse) : HttpResponse :=
  let h1 := insertHeader res.headers "Access-Control-Allow-Origin" "*"
  let h2 := insertHeader h1 "Access-Control-Allow-Methods" "GET,POST,PUT,PATCH,DELETE"
  let h3 := insertHeader h2 "Access-Control-Allow-Headers" "Content-Type,Authorization"
  { res with headers := h3 }

/-- `Response::default()` as used by the OPTIONS branch: 200, no headers,
empty body (the surrounding code then overwrites the status). -/
def defaultResponse : HttpResponse :=
  { status := 200, headers := [], body := .null }

/-- `Server::handle` (src/serve.rs:103-133), with the outcome of
`chat_completion` abstracted as an `Except` argument (it involves the
network).  `status` starts at 200; the routing branches update it; an
`Err` outcome is rendered by `ret_err` and the `Err` arm sets `status`
to 400 unconditionally; finally the status is written into the response
and the CORS headers are set. -/
def Server.handle (chat : Except String HttpResponse) (method : Method) (uri : String) :
    HttpResponse :=
  let status := 200
  let res : Nat × Except String HttpResponse :=
    if method = .POST ∧ uri = "/v1/chat/completions" then
      (status, chat)
    else if method = .OPTIONS ∧ uri = "/v1/chat/completions" then
      (204, .ok defaultResponse)
    else
      (404, .error "The requested endpoint was not found.")
  let final : Nat × HttpResponse :=
    match res.2 with
    | .ok r => (res.1, r)
    | .error err => (400, ret_err err)
  set_cors_header { final.2 with status := final.1 }

/-- `CompletionDetails` (declared in the absent `src/client`, used by
`ret_non_stream`): optional upstream completion id and token counts. -/
structure CompletionDetails where
  id : Option String
  input_tokens : Option Int
  output_tokens : Option Int

/-- `generate_completion_id` (src/serve.rs:306-309), with the nanosecond
clock sample passed in as an argument. -/
def generate_completion_id (random_id : Nat) : String :=
  "chatcmpl-" ++ toString random_id

/-- `ret_non_stream` (src/serve.rs:358-392): the OpenAI-style
non-streaming response body. -/
def ret_non_stream (id model : String) (created : Int) (content : String)
    (details : CompletionDetails) : Json :=
  let id := details.id.getD id
  let input_tokens := details.input_tokens.getD 0
  let output_tokens := details.output_tokens.getD 0
  let total_tokens := input_tokens + output_tokens
  .obj
    [ ("id", .str id)
    , ("object", .str "chat.completion")
    , ("created", .num created)
    , ("model", .str model)
    , ("choices", .arr
        [ .obj
            [ ("index", .num 0)
            , ("message", .obj
                [ ("role", .str "assistant")
                , ("content", .str content) ])
            , ("logprobs", .null)
            , ("finish_reason", .str "stop") ] ])
    , ("usage", .obj
        [ ("prompt_tokens", .num input_tokens)
        , ("completion_tokens", .num output_tokens)
        , ("total_tokens", .num total_tokens) ]) ]

/-- The `delta` object of one streaming chunk (src/serve.rs:327-336):
empty object when the frame is the final one, a role-priming object when
the content is empty, otherwise content only. -/
def frameDelta (content : String) (done : Bool) : Json :=
  if done then .obj []
  else if content = "" then .obj [("role", .str "assistant"), ("content", .str content)]
  else .obj [("content", .str content)]

/-- The `finish_reason` of one streaming chunk (src/serve.rs:327-336). -/
def frameFinishReason (done : Bool) : Json :=
  if done then .str "stop" else .null

/-- The chunk JSON `value` built by `create_frame` (src/serve.rs:337-349). -/
def create_frame_value (id model : String) (created : Int) (content : String)
    (done : Bool) : Json :=
  .obj
    [ ("id", .str id)
    , ("object", .str "chat.completion.chunk")
    , ("created", .num created)
    , ("model", .str model)
    , ("choices", .arr
        [ .obj
            [ ("index", .num 0)
            , ("delta", frameDelta content done)
            , ("finish_reason", frameFinishReason done) ] ]) ]

/-- `create_frame` (src/serve.rs:326-356): the SSE wire bytes of one
chunk; the final chunk is followed by the literal `data: [DONE]` sentinel. -/
def create_frame (id model : String) (created : Int) (content : String)
    (done : Bool) : String :=
  let value := create_frame_value id model created content done
  if done then "data: " ++ value.render ++ "\n\ndata: [DONE]\n\n"
  else "data: " ++ value.render ++ "\n\n"

/-- Rust `str::parse::<u16>()`: an optional leading `+` followed by one
or more ASCII digits, value at most 65535. -/
def parse_u16 (s : String) : Option Nat :=
  let digits :=
    match s.toList with
    | '+' :: rest => rest
    | cs => cs
  if digits = [] then none
  else if digits.all Char.isDigit then
    let v := digits.foldl (fun acc c => acc * 10 + (c.toNat - 48)) 0
    if v ≤ 65535 then some v else none
  else none

/-- The bind-address normalization of `run` (src/serve.rs:40-52).  The
standard library's `IpAddr` parser is external; it is passed in as
`parse_ip`, returning the textual form of the parsed address when the
string is a bare IP. -/
def run_addr (parse_ip : String → Option String) (addr : Option String) : String :=
  match addr with
  | some addr =>
      match parse_u16 addr with
      | some port => "127.0.0.1:" ++ toString port
      | none =>
          match parse_ip addr with
          | some ip => ip ++ ":8000"
          | none => addr
  | none => "127.0.0.1:8000"

/-! ## The streaming relay (src/serve.rs:185-248)

The spawned task races `map_event` — which forwards normalized
`SseEvent`s from the handler channel `rx2` onto the response channel
`tx`, prefixing the very first forwarded event with `ResEvent::First(None)`
— against the provider call `send_message_streaming_inner`, which
enqueues events into `rx2` as it runs and eventually returns.  When the
provider call returns, the `select!` ends: events still queued in `rx2`
are dropped, an error is reported through `send_first_event` if no event
was forwarded yet, and one final `ResEvent::Done` is sent.

The provider call itself lives in the absent `src/client` code.  It is
modelled from the spec as a `StreamCall`: a sequence of polls (between
any two of which the relay may run), each enqueueing a batch of
normalized events; the final poll enqueues `finalEvents` and returns
`result` in one atomic step (§4.1: `send_streaming` returns once the
upstream stream closes, which per §4.2 is also the moment the normalizer
emits its terminal `Done`). -/

/-- `SseEvent` (declared in the absent `src/client`): one normalized
streaming unit. -/
inductive SseEvent where
  | Text (s : String)
  | Done
  deriving DecidableEq, Repr

/-- `ResEvent` (src/serve.rs:286-291). -/
inductive ResEvent where
  | First (err : Option String)
  | Text (s : String)
  | Done
  deriving DecidableEq, Repr

/-- The body of `map_event`'s match (src/serve.rs:201-208). -/
def toRes : SseEvent → ResEvent
  | .Text t => .Text t
  | .Done => .Done

/-- What one `map_event` loop iteration sends on `tx`
(src/serve.rs:196-209): `First(None)` when this is the first forwarded
event, then the mapped event. -/
def forwardSends (is_first : Bool) (e : SseEvent) : List ResEvent :=
  (if is_first then [.First none] else []) ++ [toRes e]

/-- What the provider-call arm of the `select!` sends on `tx` when the
call returns (src/serve.rs:213-218): on error, `First(Some err)` if
nothing was forwarded yet (`send_first_event`, src/serve.rs:293-298),
then always one `Done`. -/
def completeSends (is_first : Bool) (result : Except String Unit) : List ResEvent :=
  (match result with
   | .error err => if is_first then [.First (some err)] else []
   | .ok _ => []) ++ [.Done]

/-- Modelled from the spec: the behaviour of
`send_message_streaming_inner` plus `SseHandler` (both in the absent
`src/client`), abstracted as the batches of normalized events enqueued
at each suspension point, the events enqueued by the final poll, and the
call's result. -/
structure StreamCall where
  polls : List (List SseEvent)
  finalEvents : List SseEvent
  result : Except String Unit

/-- State of the spawned relay task: remaining provider polls, the
`rx2` queue, `is_first`, the events sent on `tx` so far, and whether the
`select!` has ended. -/
structure RelayState where
  pending : List (List SseEvent)
  finalEvents : List SseEvent
  result : Except String Unit
  queue : List SseEvent
  is_first : Bool
  sent : List ResEvent
  finished : Bool

/-- Initial relay state for a provider call. -/
def initRelay (c : StreamCall) : RelayState :=
  { pending := c.polls
    finalEvents := c.finalEvents
    result := c.result
    queue := []
    is_first := true
    sent := []
    finished := false }

/-- One scheduler step of the `select!` (src/serve.rs:211-219):
`poll` runs the provider call up to its next suspension point, enqueueing
a batch of events; `forward` runs one `map_event` iteration on a queued
event; `complete` is the provider call's final poll returning — it
enqueues `finalEvents` into `rx2`, but the `select!` ends in the same
step, dropping `rx2`, so those events are never forwarded. -/
inductive RelayStep : RelayState → RelayState → Prop where
  | poll (s : RelayState) (p : List SseEvent) (rest : List (List SseEvent))
      (hp : s.pending = p :: rest) (hf : s.finished = false) :
      RelayStep s { s with pending := rest, queue := s.queue ++ p }
  | forward (s : RelayState) (e : SseEvent) (rest : List SseEvent)
      (hq : s.queue = e :: rest) (hf : s.finished = false) :
      RelayStep s { s with queue := rest
                           sent := s.sent ++ forwardSends s.is_first e
                           is_first := false }
  | complete (s : RelayState)
      (hp : s.pending = []) (hf : s.finished = false) :
      RelayStep s { s with queue := s.queue ++ s.finalEvents
                           sent := s.sent ++ completeSends s.is_first s.result
                           is_first := false
                           finished := true }

/-- A relay state reachable from the start of the provider call. -/
def relayReaches (c : StreamCall) (s : RelayState) : Prop :=
  Relation.ReflTransGen RelayStep (initRelay c) s

/-- The response writer (src/serve.rs:228-248): each channel event is
rendered by the `filter_map` — `Text` into a content frame, `Done` into
the final frame, `First` into nothing. -/
def resFrames (id model : String) (created : Int) : List ResEvent → List String :=
  List.filterMap (fun e =>
    match e with
    | .Text t => some (create_frame id model created t false)
    | .Done => some (create_frame id model created "" true)
    | .First _ => none)

/-- The done-flags of the frames the response writer renders for a
channel event sequence: one entry per emitted frame, `true` for the
final (`finish_reason:"stop"` + `[DONE]` sentinel) frame. -/
def resDoneFlags : List ResEvent → List Bool :=
  List.filterMap (fun e =>
    match e with
    | .Text _ => some false
    | .Done => some true
    | .First _ => none)

/-- Outcome of the streaming branch of `chat_completion` as seen by the
HTTP client. -/
inductive StreamOutcome where
  | failed (err : String)
  | streaming (frames : List String)
  deriving Repr

/-- The streaming branch of `chat_completion` after spawning the relay
(src/serve.rs:222-255): the first channel event is awaited before any
response is built; `First(Some(err))` makes the whole request fail
(`bail!`), anything else starts a 200 `text/event-stream` response whose
frames are rendered from the remaining events. -/
def stream_exchange (id model : String) (created : Int)
    (received : List ResEvent) : StreamOutcome :=
  match received with
  | .First (some err) :: _ => .failed err
  | _ :: rest => .streaming (resFrames id model created rest)
  | [] => .streaming []

/-! ## Model resolution (src/serve.rs:149-171)

`Model`, `ClientConfig` and `Config::set_model` live in the absent
`src/client` and `src/config` code and are modelled from the spec. -/

/-- Modelled from the spec: a `Model` "identifies a concrete (provider,
model-name) pair" (`client/model.rs` is not in src/); only its id
matters to the gateway logic embedded here. -/
structure Model where
  id : String
  deriving DecidableEq, Repr

/-- Modelled from the spec: one configured provider entry — a provider
kind tag plus the models it serves (`client/common.rs` and the config
code are not in src/). -/
structure ClientConfig where
  kind : String
  models : List Model
  deriving DecidableEq, Repr

/-- Modelled from the spec: a request-scoped configuration snapshot —
the cloned client list and the currently selected model (§4.3 step 3;
`src/config` is not in src/). -/
structure Config where
  clients : List ClientConfig
  model : Model
  deriving DecidableEq, Repr

/-- Modelled from the spec: look a model name up among the configured
providers/models (§4.3 step 2). -/
def lookupModel (clients : List ClientConfig) (name : String) : Option Model :=
  clients.findSome? (fun c => c.models.find? (fun m => m.id == name))

/-- Modelled from the spec: `Config::set_model` selects the named model
among the configured providers/models, failing on unknown names with an
error naming the unresolvable model (§4.3 step 2; `src/config` is not
in src/). -/
def Config.set_model (cfg : Config) (name : String) : Except String Config :=
  match lookupModel cfg.clients name with
  | some m => .ok { cfg with model := m }
  | none => .error ("Invalid model " ++ name)

/-- The literal default model name (src/serve.rs:36). -/
def DEFAULT_MODEL_NAME : String := "default"

/-- The `Server` state (src/serve.rs:64-67). -/
structure Server where
  clients : List ClientConfig
  model : Model
  deriving DecidableEq, Repr

/-- The `(model_name, change)` resolution of `chat_completion`
(src/serve.rs:156-162). -/
def Server.resolveModelName (server : Server) (model : String) : String × Bool :=
  if model = DEFAULT_MODEL_NAME then (server.model.id, true)
  else if server.model.id = model then (model, false)
  else (model, true)

/-- The request-scoped configuration `chat_completion` ends up with
(src/serve.rs:149-166): a fresh snapshot of the server's clients and
model, re-pointed via `set_model` when the resolution says so. -/
def Server.resolveConfig (server : Server) (model : String) : Except String Config :=
  let config : Config := { clients := server.clients, model := server.model }
  let r := server.resolveModelName model
  if r.2 then config.set_model r.1 else .ok config

/-! ## Theorems -/

/-- CORS header lookups on any response that went through
`set_cors_header`. -/
lemma getHeader_set_cors (r : HttpResponse) :
    getHeader (set_cors_header r) "Access-Control-Allow-Origin" = some "*" ∧
    getHeader (set_cors_header r) "Access-Control-Allow-Methods"
      = some "GET,POST,PUT,PATCH,DELETE" ∧
    getHeader (set_cors_header r) "Access-Control-Allow-Headers"
      = some "Content-Type,Authorization" := by
  refine ⟨?_, ?_, ?_⟩ <;>
    simp [getHeader, set_cors_header, insertHeader, List.lookup, List.filter_cons]

/-- C8: every HTTP response the gateway produces — for every routing
outcome, every method and every uri, whatever response `chat_completion`
returned — carries the three permissive CORS headers with their exact
values. -/
theorem c8_cors_on_every_response (chat : Except String HttpResponse)
    (method : Method) (uri : String) :
    getHeader (Server.handle chat method uri) "Access-Control-Allow-Origin" = some "*" ∧
    getHeader (Server.handle chat method uri) "Access-Control-Allow-Methods"
      = some "GET,POST,PUT,PATCH,DELETE" ∧
    getHeader (Server.handle chat method uri) "Access-Control-Allow-Headers"
      = some "Content-Type,Authorization" := by
  unfold Server.handle
  exact getHeader_set_cors _

/-- C1: the claim says an unknown (method, path) pair yields HTTP 404
with the standard error envelope.  The routing branch of
`Server::handle` does set `status = NOT_FOUND`, but the subsequent `Err`
arm unconditionally overwrites `status` with `BAD_REQUEST` before the
response is returned, so every unknown method/path is answered with 400
(and the envelope), never 404: the `NOT_FOUND` assignment is dead.  This
theorem evaluates the handler on every request outside the two known
(method, path) pairs. -/
theorem c1_unknown_route_is_400 (chat : Except String HttpResponse)
    (method : Method) (uri : String)
    (h1 : ¬(method = .POST ∧ uri = "/v1/chat/completions"))
    (h2 : ¬(method = .OPTIONS ∧ uri = "/v1/chat/completions")) :
    (Server.handle chat method uri).status = 400 ∧
    (Server.handle chat method uri).status ≠ 404 ∧
    (Server.handle chat method uri).body
      = errorEnvelope "The requested endpoint was not found." := by
  refine ⟨?_, ?_, ?_⟩ <;>
    simp [Server.handle, h1, h2, set_cors_header, ret_err]

/-- C1 witness: a concrete unknown route — `GET /v1/models` — is
answered with status 400 (not 404) and the error envelope. -/
theorem c1_unknown_route_is_400_witness :
    (Server.handle (.ok defaultResponse) .GET "/v1/models").status = 400 ∧
    (Server.handle (.ok defaultResponse) .GET "/v1/models").status ≠ 404 ∧
    (Server.handle (.ok defaultResponse) .GET "/v1/models").body
      = errorEnvelope "The requested endpoint was not found." :=
  c1_unknown_route_is_400 (.ok defaultResponse) .GET "/v1/models"
    (by decide) (by decide)

/-- C5: whenever the provider returns answer text together with both
token counts, the non-streaming body carries the text verbatim at
`choices[0].message.content` and `usage.total_tokens` is the exact sum
`prompt_tokens + completion_tokens`; in particular text `"hello"` with
usage in:3/out:1 gives content `"hello"` and `total_tokens` 4. -/
theorem c5_non_stream_content_and_usage (id model : String) (created : Int)
    (content : String) (did : Option String) (itok otok : Int) :
    (((ret_non_stream id model created content
          ⟨did, some itok, some otok⟩).get? "choices").bind
        (fun c => (c.idx? 0).bind
          (fun c0 => (c0.get? "message").bind (fun m => m.get? "content")))
      = some (.str content)) ∧
    (((ret_non_stream id model created content
          ⟨did, some itok, some otok⟩).get? "usage").bind
        (fun u => u.get? "prompt_tokens") = some (.num itok)) ∧
    (((ret_non_stream id model created content
          ⟨did, some itok, some otok⟩).get? "usage").bind
        (fun u => u.get? "completion_tokens") = some (.num otok)) ∧
    (((ret_non_stream id model created content
          ⟨did, some itok, some otok⟩).get? "usage").bind
        (fun u => u.get? "total_tokens") = some (.num (itok + otok))) ∧
    (((ret_non_stream "chatcmpl-1" "default" 0 "hello"
          ⟨none, some 3, some 1⟩).get? "usage").bind
        (fun u => u.get? "total_tokens") = some (.num 4)) ∧
    (((ret_non_stream "chatcmpl-1" "default" 0 "hello"
          ⟨none, some 3, some 1⟩).get? "choices").bind
        (fun c => (c.idx? 0).bind
          (fun c0 => (c0.get? "message").bind (fun m => m.get? "content")))
      = some (.str "hello")) := by
  refine ⟨?_, ?_, ?_, ?_, ?_, ?_⟩ <;>
    simp [ret_non_stream, Json.get?, Json.idx?, List.lookup]

/-- C9: the non-streaming body's `id` is the upstream completion id from
`CompletionDetails` whenever the provider supplied one, and the locally
generated `chatcmpl-<n>` id exactly when it did not
(`details.id.as_deref().unwrap_or(id)` in `ret_non_stream`). -/
theorem c9_upstream_id_preferred (n : Nat) (model : String) (created : Int)
    (content : String) (upstream : String) (itok otok : Option Int) :
    ((ret_non_stream (generate_completion_id n) model created content
        ⟨some upstream, itok, otok⟩).get? "id" = some (.str upstream)) ∧
    ((ret_non_stream (generate_completion_id n) model created content
        ⟨none, itok, otok⟩).get? "id"
      = some (.str (generate_completion_id n))) ∧
    generate_completion_id n = "chatcmpl-" ++ toString n := by
  refine ⟨?_, ?_, rfl⟩ <;>
    simp [ret_non_stream, Json.get?, List.lookup, generate_completion_id]

/-- C6: resolving the literal `"default"` model name and resolving the
configured default model by its real id yield the same request-scoped
configuration, provided the configured default model resolves to itself
among the configured clients (the `"default"` branch rebuilds via
`set_model`, the literal-id branch skips the rebuild). -/
theorem c6_default_resolution_idempotent (server : Server)
    (hres : lookupModel server.clients server.model.id = some server.model) :
    server.resolveConfig DEFAULT_MODEL_NAME = server.resolveConfig server.model.id := by
  have hL : server.resolveConfig DEFAULT_MODEL_NAME
      = .ok { clients := server.clients, model := server.model } := by
    simp [Server.resolveConfig, Server.resolveModelName, Config.set_model, hres]
  have hR : server.resolveConfig server.model.id
      = .ok { clients := server.clients, model := server.model } := by
    by_cases hd : server.model.id = DEFAULT_MODEL_NAME
    · have hres' : lookupModel server.clients DEFAULT_MODEL_NAME = some server.model := by
        rw [← hd]
        exact hres
      simp [Server.resolveConfig, Server.resolveModelName, hd, Config.set_model, hres']
    · simp [Server.resolveConfig, Server.resolveModelName, hd, Config.set_model]
  rw [hL, hR]

/-- A concrete one-provider server configuration used by witnesses. -/
def serverW : Server :=
  { clients := [{ kind := "openai", models := [{ id := "openai:gpt-4" }] }]
    model := { id := "openai:gpt-4" } }

/-- C6 witness: on a concrete configuration whose default model is
`openai:gpt-4`, resolving `"default"` and resolving `"openai:gpt-4"`
give the same configuration. -/
theorem c6_default_resolution_idempotent_witness :
    lookupModel serverW.clients serverW.model.id = some serverW.model ∧
    serverW.resolveConfig DEFAULT_MODEL_NAME = serverW.resolveConfig "openai:gpt-4" := by
  refine ⟨by decide, ?_⟩
  exact c6_default_resolution_idempotent serverW (by decide)

/-- C7: the bind-address normalization of `run`: a bare u16 port `p`
becomes `127.0.0.1:p`; a bare IP `ip` becomes `ip:8000`; no address
becomes `127.0.0.1:8000`; anything else is used verbatim.  The standard
library IP parser is abstracted as `parse_ip`; the hypothesis records
that a string parsing as a bare u16 (digits only) never parses as an IP
address (IP text always contains a separator). -/
theorem c7_addr_normalization (parse_ip : String → Option String)
    (hdisj : ∀ s, (parse_u16 s).isSome → parse_ip s = none) :
    (∀ s p, parse_u16 s = some p →
        run_addr parse_ip (some s) = "127.0.0.1:" ++ toString p) ∧
    (∀ s ip, parse_ip s = some ip → run_addr parse_ip (some s) = ip ++ ":8000") ∧
    run_addr parse_ip none = "127.0.0.1:8000" ∧
    (∀ s, parse_u16 s = none → parse_ip s = none → run_addr parse_ip (some s) = s) := by
  refine ⟨?_, ?_, rfl, ?_⟩
  · intro s p hp
    simp [run_addr, hp]
  · intro s ip hip
    have hu : parse_u16 s = none := by
      cases hps : parse_u16 s with
      | none => rfl
      | some v =>
          have hn := hdisj s (by simp [hps])
          rw [hn] at hip
          cases hip
    simp [run_addr, hu, hip]
  · intro s h1 h2
    simp [run_addr, h1, h2]

/-- A stub IP parser recognizing one concrete address, used to witness
the address-normalization theorem. -/
def ipStub (s : String) : Option String :=
  if s = "192.168.0.1" then some s else none

/-- C7 witness: concrete normalizations — a bare port, a bare IP, no
address, and a verbatim host:port string. -/
theorem c7_addr_normalization_witness :
    parse_u16 "8080" = some 8080 ∧
    run_addr ipStub (some "8080") = "127.0.0.1:8080" ∧
    ipStub "192.168.0.1" = some "192.168.0.1" ∧
    run_addr ipStub (some "192.168.0.1") = "192.168.0.1:8000" ∧
    run_addr ipStub none = "127.0.0.1:8000" ∧
    run_addr ipStub (some "example.com:3000") = "example.com:3000" := by
  have hdisj : ∀ s, (parse_u16 s).isSome → ipStub s = none := by
    intro s hs
    by_cases h : s = "192.168.0.1"
    · subst h
      exact absurd hs (by decide)
    · simp [ipStub, h]
  obtain ⟨h1, h2, h3, h4⟩ := c7_addr_normalization ipStub hdisj
  refine ⟨by decide, ?_, by decide, ?_, h3, ?_⟩
  · rw [h1 "8080" 8080 (by decide)]
    decide
  · rw [h2 "192.168.0.1" "192.168.0.1" (by decide)]
    decide
  · exact h4 "example.com:3000" (by decide) (by decide)

/-- C10: a request for the literal `"default"` model is echoed as the
configured default model's real id (never `"default"` itself, as long as
the real id is not the literal `"default"`), any other requested name is
echoed verbatim, and both the non-streaming body and every streaming
chunk value carry exactly the resolved name in their `model` field. -/
theorem c10_model_echo (server : Server) (reqModel cid : String) (created : Int)
    (content t : String) (d : CompletionDetails) (done : Bool) :
    ((server.resolveModelName DEFAULT_MODEL_NAME).1 = server.model.id) ∧
    (server.model.id ≠ DEFAULT_MODEL_NAME →
        (server.resolveModelName DEFAULT_MODEL_NAME).1 ≠ DEFAULT_MODEL_NAME) ∧
    (reqModel ≠ DEFAULT_MODEL_NAME → (server.resolveModelName reqModel).1 = reqModel) ∧
    ((ret_non_stream cid (server.resolveModelName reqModel).1 created content d).get? "model"
        = some (.str (server.resolveModelName reqModel).1)) ∧
    ((create_frame_value cid (server.resolveModelName reqModel).1 created t done).get? "model"
        = some (.str (server.resolveModelName reqModel).1)) := by
  refine ⟨?_, ?_, ?_, ?_, ?_⟩
  · simp [Server.resolveModelName]
  · intro h
    simpa [Server.resolveModelName] using h
  · intro h
    simp only [Server.resolveModelName, if_neg h]
    split <;> rfl
  · simp [ret_non_stream, Json.get?, List.lookup]
  · simp [create_frame_value, Json.get?, List.lookup]

/-- C10 witness: on the concrete configuration, `"default"` is echoed as
`openai:gpt-4` (not `"default"`), `"llama3"` is echoed verbatim, and body
and chunk values carry the resolved name. -/
theorem c10_model_echo_witness :
    (serverW.resolveModelName DEFAULT_MODEL_NAME).1 = "openai:gpt-4" ∧
    (serverW.resolveModelName DEFAULT_MODEL_NAME).1 ≠ DEFAULT_MODEL_NAME ∧
    (serverW.resolveModelName "llama3").1 = "llama3" ∧
    ((ret_non_stream "chatcmpl-1" (serverW.resolveModelName DEFAULT_MODEL_NAME).1 0 "hello"
        ⟨none, none, none⟩).get? "model"
      = some (.str (serverW.resolveModelName DEFAULT_MODEL_NAME).1)) ∧
    ((create_frame_value "chatcmpl-1" (serverW.resolveModelName DEFAULT_MODEL_NAME).1 0 "he"
        false).get? "model"
      = some (.str (serverW.resolveModelName DEFAULT_MODEL_NAME).1)) := by
  obtain ⟨a1, a2, -, a4, a5⟩ :=
    c10_model_echo serverW DEFAULT_MODEL_NAME "chatcmpl-1" 0 "hello" "he" ⟨none, none, none⟩ false
  obtain ⟨-, -, b3, -, -⟩ :=
    c10_model_echo serverW "llama3" "chatcmpl-1" 0 "hello" "he" ⟨none, none, none⟩ false
  exact ⟨a1, a2 (by decide), b3 (by decide), a4, a5⟩

/-- String append is associative (via the underlying character lists). -/
lemma string_append_assoc (a b c : String) : a ++ b ++ c = a ++ (b ++ c) := by
  apply String.ext
  simp [String.data_append]

/-- C3 counterexample: the claim says the first SSE frame of every
stream with at least one text delta is the role-priming frame
`delta = (role:"assistant", content:"")`.  For a provider emitting the
deltas `"he"` then `"llo"`, the response channel carries
`First(None), Text "he", Text "llo", Done`, and the writer's first frame
carries `delta = (content:"he")` — no role-priming frame is ever
injected; one would appear only if a delta were itself empty. -/
theorem c3_counterexample :
    resFrames "chatcmpl-1" "m" 0
        [ResEvent.First none, ResEvent.Text "he", ResEvent.Text "llo", ResEvent.Done]
      = [create_frame "chatcmpl-1" "m" 0 "he" false,
         create_frame "chatcmpl-1" "m" 0 "llo" false,
         create_frame "chatcmpl-1" "m" 0 "" true] ∧
    frameDelta "he" false = Json.obj [("content", .str "he")] ∧
    frameDelta "he" false ≠ Json.obj [("role", .str "assistant"), ("content", .str "")] := by
  refine ⟨rfl, ?_, ?_⟩ <;> simp [frameDelta]

/-- C3 (amended): for a stream whose provider emits the deltas `texts`
(none of them empty), the frame sequence is one `delta.content` frame
per delta followed by one final frame with empty delta and
`finish_reason:"stop"`, whose wire bytes end in the literal
`data: [DONE]` sentinel; the role-priming delta is produced exactly for
an empty content, and the writer injects no extra first frame. -/
theorem c3_frame_sequence (id model : String) (created : Int) (texts : List String)
    (hne : ∀ t ∈ texts, t ≠ "") :
    (resFrames id model created
        ([ResEvent.First none] ++ texts.map ResEvent.Text ++ [ResEvent.Done])
      = texts.map (fun t => create_frame id model created t false)
          ++ [create_frame id model created "" true]) ∧
    (∀ t ∈ texts, frameDelta t false = .obj [("content", .str t)]) ∧
    frameDelta "" false = .obj [("role", .str "assistant"), ("content", .str "")] ∧
    frameDelta "" true = .obj [] ∧
    frameFinishReason true = .str "stop" ∧
    (∀ t, create_frame id model created t false
        = "data: " ++ (create_frame_value id model created t false).render ++ "\n\n") ∧
    (∃ pre, create_frame id model created "" true = pre ++ "data: [DONE]\n\n") := by
  refine ⟨?_, ?_, rfl, rfl, rfl, ?_, ?_⟩
  · have key : ∀ l : List String,
        resFrames id model created (l.map ResEvent.Text ++ [ResEvent.Done])
          = l.map (fun t => create_frame id model created t false)
              ++ [create_frame id model created "" true] := by
      intro l
      induction l with
      | nil => rfl
      | cons a l ih =>
          have hstep : resFrames id model created
              (ResEvent.Text a :: (l.map ResEvent.Text ++ [ResEvent.Done]))
            = create_frame id model created a false
                :: resFrames id model created (l.map ResEvent.Text ++ [ResEvent.Done]) := rfl
          simp only [List.map_cons, List.cons_append, hstep, ih]
    have hfirst : resFrames id model created
        ([ResEvent.First none] ++ texts.map ResEvent.Text ++ [ResEvent.Done])
      = resFrames id model created (texts.map ResEvent.Text ++ [ResEvent.Done]) := rfl
    rw [hfirst, key]
  · intro t ht
    simp [frameDelta, hne t ht]
  · intro t
    simp [create_frame]
  · refine ⟨"data: " ++ (create_frame_value id model created "" true).render ++ "\n\n", ?_⟩
    have hsplit : ("\n\ndata: [DONE]\n\n" : String) = "\n\n" ++ "data: [DONE]\n\n" := by decide
    simp [create_frame, hsplit, string_append_assoc]

/-- The `map_event` iteration never sends `Done` for a non-`Done` input. -/
lemma done_not_mem_forwardSends (b : Bool) (e : SseEvent) (he : e ≠ .Done) :
    ResEvent.Done ∉ forwardSends b e := by
  cases e with
  | Text t => cases b <;> simp [forwardSends, toRes]
  | Done => exact absurd rfl he

/-- The completion arm sends exactly one `Done`, as the last event, and
nothing but `First` before it. -/
lemma completeSends_eq (b : Bool) (r : Except String Unit) :
    ∃ pre, completeSends b r = pre ++ [ResEvent.Done] ∧ ResEvent.Done ∉ pre := by
  cases r with
  | ok u => exact ⟨[], rfl, by simp⟩
  | error e =>
      cases b with
      | true => exact ⟨[ResEvent.First (some e)], rfl, by simp⟩
      | false => exact ⟨[], rfl, by simp⟩

/-- Relay invariant: upcoming provider polls carry no `Done` (the
normalizer's `Done` coincides with stream termination), no `Done` sits
in `rx2` or was forwarded while the `select!` is live, and once it has
ended the channel contents are some `Done`-free prefix followed by one
final `Done`. -/
def RelayInv (s : RelayState) : Prop :=
  (∀ p ∈ s.pending, SseEvent.Done ∉ p) ∧
  (s.finished = false → SseEvent.Done ∉ s.queue) ∧
  (s.finished = false → ResEvent.Done ∉ s.sent) ∧
  (s.finished = true → ∃ l0, s.sent = l0 ++ [ResEvent.Done] ∧ ResEvent.Done ∉ l0)

/-- The relay invariant is preserved by every scheduler step. -/
lemma relayInv_step {s s' : RelayState} (h : RelayStep s s') (hinv : RelayInv s) :
    RelayInv s' := by
  obtain ⟨hpend, hq, hnf, hfin⟩ := hinv
  cases h with
  | poll p rest hp hf =>
      refine ⟨?_, ?_, ?_, ?_⟩
      · intro q hmem
        exact hpend q (hp ▸ List.mem_cons_of_mem _ hmem)
      · intro _ hmem
        rcases List.mem_append.mp hmem with h1 | h2
        · exact hq hf h1
        · exact hpend p (hp ▸ List.mem_cons_self _ _) h2
      · intro _
        exact hnf hf
      · intro habs
        have hst : s.finished = true := habs
        exact absurd hst (by simp [hf])
  | forward e rest hq' hf =>
      have he : e ≠ SseEvent.Done := by
        intro habs
        exact hq hf (hq' ▸ habs ▸ List.mem_cons_self _ _)
      refine ⟨?_, ?_, ?_, ?_⟩
      · intro q hmem
        exact hpend q hmem
      · intro _ hmem
        exact hq hf (hq' ▸ List.mem_cons_of_mem _ hmem)
      · intro _ hmem
        rcases List.mem_append.mp hmem with h1 | h2
        · exact hnf hf h1
        · exact done_not_mem_forwardSends s.is_first e he h2
      · intro habs
        have hst : s.finished = true := habs
        exact absurd hst (by simp [hf])
  | complete hp hf =>
      refine ⟨?_, ?_, ?_, ?_⟩
      · intro q hmem
        exact hpend q hmem
      · intro habs
        have : (true : Bool) = false := habs
        cases this
      · intro habs
        have : (true : Bool) = false := habs
        cases this
      · intro _
        obtain ⟨pre, hpre, hnm⟩ := completeSends_eq s.is_first s.result
        refine ⟨s.sent ++ pre, ?_, ?_⟩
        · show s.sent ++ completeSends s.is_first s.result = s.sent ++ pre ++ [ResEvent.Done]
          rw [hpre, List.append_assoc]
        · intro hmem
          rcases List.mem_append.mp hmem with h1 | h2
          · exact hnf hf h1
          · exact hnm h2

/-- The relay invariant holds in every reachable state, given the
spec-modelled normalizer property that no intermediate poll emits
`Done`. -/
lemma relayInv_reachable (c : StreamCall) (hnorm : ∀ p ∈ c.polls, SseEvent.Done ∉ p)
    {s : RelayState} (h : relayReaches c s) : RelayInv s := by
  induction h with
  | refl =>
      refine ⟨hnorm, ?_, ?_, ?_⟩
      · intro _
        simp [initRelay]
      · intro _
        simp [initRelay]
      · intro habs
        have : (false : Bool) = true := habs
        cases this
  | tail hpre hstep ih => exact relayInv_step hstep ih

/-- Once the `select!` has ended, the spawned task is gone: no step
applies to a finished state. -/
lemma no_step_of_finished {s s' : RelayState} (hf : s.finished = true) :
    ¬ RelayStep s s' := by
  intro h
  cases h with
  | poll p rest hp hfin => rw [hfin] at hf; cases hf
  | forward e rest hq hfin => rw [hfin] at hf; cases hf
  | complete hp hfin => rw [hfin] at hf; cases hf

/-- Only a `Done` on the channel renders a done-flagged frame. -/
lemma true_not_mem_resDoneFlags {l : List ResEvent} (h : ResEvent.Done ∉ l) :
    true ∉ resDoneFlags l := by
  intro hmem
  obtain ⟨e, hel, hfe⟩ := List.mem_filterMap.mp hmem
  cases e with
  | First err => simp at hfe
  | Text t => simp at hfe
  | Done => exact h hel

/-- C2: in every schedule of the streaming relay — provided the
normalizer's `Done` only accompanies stream termination (its
spec-guaranteed behaviour) — at most one `Done` is ever on the response
channel; a `Done` appears only once the `select!` has ended, after which
no step (hence no further `Text` or `Done`) is possible; and at
completion the channel holds exactly one `Done`, as its last event, so
the rendered SSE body has exactly one `finish_reason:"stop"` +
`data: [DONE]` frame and it comes last. -/
theorem c2_at_most_one_done (c : StreamCall) (s : RelayState)
    (hnorm : ∀ p ∈ c.polls, SseEvent.Done ∉ p)
    (hreach : relayReaches c s) :
    s.sent.count ResEvent.Done ≤ 1 ∧
    (ResEvent.Done ∈ s.sent → s.finished = true) ∧
    (s.finished = true →
        s.sent.count ResEvent.Done = 1 ∧
        s.sent.getLast? = some ResEvent.Done ∧
        (resDoneFlags s.sent).count true = 1 ∧
        (resDoneFlags s.sent).getLast? = some true) ∧
    (s.finished = true → ∀ s', ¬ RelayStep s s') := by
  obtain ⟨hpend, hq, hnf, hfin⟩ := relayInv_reachable c hnorm hreach
  have hFin : s.finished = true →
      s.sent.count ResEvent.Done = 1 ∧
      s.sent.getLast? = some ResEvent.Done ∧
      (resDoneFlags s.sent).count true = 1 ∧
      (resDoneFlags s.sent).getLast? = some true := by
    intro h
    obtain ⟨l0, hsent, hnm⟩ := hfin h
    have hflags : resDoneFlags s.sent = resDoneFlags l0 ++ [true] := by
      rw [hsent]
      simp [resDoneFlags, List.filterMap_append]
    refine ⟨?_, ?_, ?_, ?_⟩
    · rw [hsent]
      simp [List.count_eq_zero.mpr hnm]
    · rw [hsent]
      exact List.getLast?_concat _
    · rw [hflags]
      simp [List.count_eq_zero.mpr (true_not_mem_resDoneFlags hnm)]
    · rw [hflags]
      exact List.getLast?_concat _
  refine ⟨?_, ?_, hFin, ?_⟩
  · by_cases h : s.finished = true
    · rw [(hFin h).1]
    · have h0 : s.finished = false := by
        revert h
        cases s.finished <;> simp
      simp [List.count_eq_zero.mpr (hnf h0)]
  · intro hmem
    by_cases h : s.finished = true
    · exact h
    · have h0 : s.finished = false := by
        revert h
        cases s.finished <;> simp
      exact absurd hmem (hnf h0)
  · intro h s'
    exact no_step_of_finished h

/-- A concrete provider call for the witnesses: two single-delta polls,
then termination (the normalizer's `Done` rides the final poll). -/
def callW : StreamCall :=
  { polls := [[SseEvent.Text "he"], [SseEvent.Text "llo"]]
    finalEvents := [SseEvent.Done]
    result := .ok () }

/-- The relay state after the schedule poll/forward/poll/forward/complete
on `callW`. -/
def relayFinalW : RelayState :=
  { pending := []
    finalEvents := [SseEvent.Done]
    result := .ok ()
    queue := [SseEvent.Done]
    is_first := false
    sent := [.First none, .Text "he", .Text "llo", .Done]
    finished := true }

/-- A concrete complete schedule of `callW` reaching `relayFinalW`. -/
lemma relayReaches_callW : relayReaches callW relayFinalW := by
  have h1 : RelayStep (initRelay callW)
      { pending := [[SseEvent.Text "llo"]], finalEvents := [SseEvent.Done], result := .ok ()
        queue := [SseEvent.Text "he"], is_first := true, sent := [], finished := false } :=
    RelayStep.poll _ _ _ rfl rfl
  have h2 : RelayStep
      { pending := [[SseEvent.Text "llo"]], finalEvents := [SseEvent.Done], result := .ok ()
        queue := [SseEvent.Text "he"], is_first := true, sent := [], finished := false }
      { pending := [[SseEvent.Text "llo"]], finalEvents := [SseEvent.Done], result := .ok ()
        queue := [], is_first := false, sent := [.First none, .Text "he"], finished := false } :=
    RelayStep.forward _ _ _ rfl rfl
  have h3 : RelayStep
      { pending := [[SseEvent.Text "llo"]], finalEvents := [SseEvent.Done], result := .ok ()
        queue := [], is_first := false, sent := [.First none, .Text "he"], finished := false }
      { pending := [], finalEvents := [SseEvent.Done], result := .ok ()
        queue := [SseEvent.Text "llo"], is_first := false, sent := [.First none, .Text "he"],
        finished := false } :=
    RelayStep.poll _ _ _ rfl rfl
  have h4 : RelayStep
      { pending := [], finalEvents := [SseEvent.Done], result := .ok ()
        queue := [SseEvent.Text "llo"], is_first := false, sent := [.First none, .Text "he"],
        finished := false }
      { pending := [], finalEvents := [SseEvent.Done], result := .ok ()
        queue := [], is_first := false,
        sent := [.First none, .Text "he", .Text "llo"], finished := false } :=
    RelayStep.forward _ _ _ rfl rfl
  have h5 : RelayStep
      { pending := [], finalEvents := [SseEvent.Done], result := .ok ()
        queue := [], is_first := false,
        sent := [.First none, .Text "he", .Text "llo"], finished := false }
      relayFinalW :=
    RelayStep.complete _ rfl rfl
  exact ((((Relation.ReflTransGen.single h1).tail h2).tail h3).tail h4).tail h5

/-- C2 witness: on the concrete two-delta stream, the completed relay
has sent exactly one `Done`, as the last channel event, and the rendered
body has exactly one done frame, in last position. -/
theorem c2_at_most_one_done_witness :
    (∀ p ∈ callW.polls, SseEvent.Done ∉ p) ∧
    relayFinalW.sent.count ResEvent.Done = 1 ∧
    relayFinalW.sent.getLast? = some ResEvent.Done ∧
    (resDoneFlags relayFinalW.sent).count true = 1 ∧
    (resDoneFlags relayFinalW.sent).getLast? = some true := by
  have h := c2_at_most_one_done callW relayFinalW (by decide) relayReaches_callW
  exact ⟨by decide, (h.2.2.1 rfl).1, (h.2.2.1 rfl).2.1, (h.2.2.1 rfl).2.2.1,
    (h.2.2.1 rfl).2.2.2⟩

/-- For a provider call failing before producing any normalized event,
the only reachable relay states are the initial one and the completed
one whose channel is `First(Some err), Done`. -/
lemma relay_pre_token_failure_states (c : StreamCall) (err : String)
    (hpolls : c.polls = []) (herr : c.result = .error err)
    {s : RelayState} (h : relayReaches c s) :
    s = initRelay c ∨ (s.sent = [.First (some err), .Done] ∧ s.finished = true) := by
  induction h with
  | refl => exact Or.inl rfl
  | tail hpre hstep ih =>
      rcases ih with hinit | ⟨hsent, hfinished⟩
      · subst hinit
        cases hstep with
        | poll p rest hp hf =>
            rw [show (initRelay c).pending = c.polls from rfl, hpolls] at hp
            cases hp
        | forward e rest hq hf =>
            rw [show (initRelay c).queue = [] from rfl] at hq
            cases hq
        | complete hp hf =>
            refine Or.inr ⟨?_, rfl⟩
            show [] ++ completeSends true c.result = [.First (some err), .Done]
            rw [herr]
            rfl
      · exact absurd hstep (no_step_of_finished hfinished)

/-- C4: when the provider call fails before any normalized event (no
poll ever enqueues one), the relay's channel only ever carries
`First(Some err), Done`; the response writer, which withholds the
response until that first event, turns it into a failed exchange — no
SSE frame is emitted — and the handler answers with status 400 (not a
success status) and the standard JSON error envelope. -/
theorem c4_pre_token_failure (c : StreamCall) (err : String) (s : RelayState)
    (id model : String) (created : Int)
    (hpolls : c.polls = []) (herr : c.result = .error err)
    (hreach : relayReaches c s) :
    (s.sent = [] ∨ s.sent = [.First (some err), .Done]) ∧
    (s.sent ≠ [] → stream_exchange id model created s.sent = .failed err) ∧
    (s.finished = true → stream_exchange id model created s.sent = .failed err) ∧
    (Server.handle (.error err) .POST "/v1/chat/completions").status = 400 ∧
    (Server.handle (.error err) .POST "/v1/chat/completions").status ≠ 200 ∧
    (Server.handle (.error err) .POST "/v1/chat/completions").body = errorEnvelope err := by
  have hchar := relay_pre_token_failure_states c err hpolls herr hreach
  have hsent : s.sent = [] ∨ s.sent = [.First (some err), .Done] := by
    rcases hchar with h | ⟨h, -⟩
    · rw [h]
      exact Or.inl rfl
    · exact Or.inr h
  have hex : s.sent = [.First (some err), .Done] →
      stream_exchange id model created s.sent = .failed err := by
    intro h
    rw [h]
    rfl
  refine ⟨hsent, ?_, ?_, ?_, ?_, ?_⟩
  · intro hne
    rcases hsent with h | h
    · exact absurd h hne
    · exact hex h
  · intro hfin
    rcases hchar with h | ⟨h, -⟩
    · rw [h] at hfin
      exact absurd hfin (by simp [initRelay])
    · exact hex h
  · simp [Server.handle, set_cors_header, ret_err]
  · simp [Server.handle, set_cors_header, ret_err]
  · simp [Server.handle, set_cors_header, ret_err]

/-- A concrete provider call failing before any token. -/
def callErrW : StreamCall :=
  { polls := [], finalEvents := [], result := .error "401 unauthorized" }

/-- The completed relay state of the failing call. -/
def relayErrFinalW : RelayState :=
  { pending := [], finalEvents := [], result := .error "401 unauthorized"
    queue := [], is_first := false
    sent := [.First (some "401 unauthorized"), .Done], finished := true }

/-- The failing call completes in one step. -/
lemma relayReaches_callErrW : relayReaches callErrW relayErrFinalW := by
  have h : RelayStep (initRelay callErrW) relayErrFinalW :=
    RelayStep.complete _ rfl rfl
  exact Relation.ReflTransGen.single h

/-- C4 witness: the concrete pre-token failure yields a failed stream
exchange (no frames) and a 400 response with the error envelope. -/
theorem c4_pre_token_failure_witness :
    stream_exchange "chatcmpl-1" "m" 0 relayErrFinalW.sent = .failed "401 unauthorized" ∧
    (Server.handle (.error "401 unauthorized") .POST "/v1/chat/completions").status = 400 ∧
    (Server.handle (.error "401 unauthorized") .POST "/v1/chat/completions").status ≠ 200 ∧
    (Server.handle (.error "401 unauthorized") .POST "/v1/chat/completions").body
      = errorEnvelope "401 unauthorized" := by
  have h := c4_pre_token_failure callErrW "401 unauthorized" relayErrFinalW
    "chatcmpl-1" "m" 0 rfl rfl relayReaches_callErrW
  exact ⟨h.2.2.1 rfl, h.2.2.2.1, h.2.2.2.2.1, h.2.2.2.2.2⟩

/-- C3 witness: for the concrete deltas `"he"`, `"llo"` the stream
renders two content frames followed by the final done frame, which ends
in the `data: [DONE]` sentinel. -/
theorem c3_frame_sequence_witness :
    (resFrames "chatcmpl-1" "m" 0
        ([ResEvent.First none] ++ ["he", "llo"].map ResEvent.Text ++ [ResEvent.Done])
      = [create_frame "chatcmpl-1" "m" 0 "he" false,
         create_frame "chatcmpl-1" "m" 0 "llo" false,
         create_frame "chatcmpl-1" "m" 0 "" true]) ∧
    frameDelta "llo" false = .obj [("content", .str "llo")] ∧
    (∃ pre, create_frame "chatcmpl-1" "m" 0 "" true = pre ++ "data: [DONE]\n\n") := by
  obtain ⟨h1, h2, -, -, -, -, h7⟩ :=
    c3_frame_sequence "chatcmpl-1" "m" 0 ["he", "llo"] (by decide)
  exact ⟨by simpa using h1, h2 "llo" (by decide), h7⟩
